import Mathlib

/-!
Verification of the workout-metrics calculator.

The repository holds two near-duplicate Go programs: `src/main.go`
(embedded here as namespace `MainGo`) and `src/unnamed/part_000`
(namespace `Part0`).  `float64` values are modelled by exact rationals
(`ℚ`); `time.Duration` (an `int64` count of nanoseconds) is modelled by
`ℤ`; Go `int` fields by `ℤ`.  Go's `fmt` `%.0f` / `%.2f` verbs are
modelled by exact decimal rounding with ties to even, which is what Go
prints for every value arising in this program.
-/

namespace Fl

/-- `time.Duration.Hours`: nanoseconds to hours. -/
def hours (d : ℤ) : ℚ := (d : ℚ) / 3600000000000

/-- `time.Duration.Minutes`: nanoseconds to minutes. -/
def minutes (d : ℤ) : ℚ := (d : ℚ) / 60000000000

/-- Round a rational to the nearest integer, ties to even (Go `fmt` rounding). -/
def roundHalfEven (x : ℚ) : ℤ :=
  let f := ⌊x⌋
  if x - f < 1 / 2 then f
  else if (1 / 2 : ℚ) < x - f then f + 1
  else if f % 2 = 0 then f else f + 1

/-- Decimal digits of `n`, most significant first; `fuel` bounds the recursion. -/
def natDigits : Nat → Nat → List Char
  | 0, _ => []
  | _ + 1, 0 => []
  | fuel + 1, n => natDigits fuel (n / 10) ++ [Char.ofNat (48 + n % 10)]

/-- Decimal string of a natural number. -/
def natToDecimal (n : Nat) : String :=
  if n = 0 then "0" else String.mk (natDigits 30 n)

/-- Left-pad a digit string with zeros to length `n`. -/
def padZeros (s : String) (n : Nat) : String :=
  String.mk (List.replicate (n - s.length) (Char.ofNat 48)) ++ s

/-- Render an integer `scaled` = value·10^decimals as a fixed-point numeral. -/
def fmtScaled (decimals : Nat) (scaled : ℤ) : String :=
  let sign := if scaled < 0 then "-" else ""
  let digits := natToDecimal scaled.natAbs
  if decimals = 0 then sign ++ digits
  else
    let padded := padZeros digits (decimals + 1)
    let k := padded.length - decimals
    sign ++ padded.take k ++ "." ++ padded.drop k

/-- Go `fmt.Sprintf` with verb `%.*f`: round to `decimals` places and render. -/
def fmtFixed (decimals : Nat) (x : ℚ) : String :=
  fmtScaled decimals (roundHalfEven (x * (10 : ℚ) ^ decimals))

end Fl

namespace MainGo

/-- Shared constants of `src/main.go`. -/
def MInKm : ℚ := 1000

def MinInHours : ℚ := 60

def LenStep : ℚ := 0.65

def CmInM : ℚ := 100

/-- `Training` — the common workout structure of `src/main.go`. -/
structure Training where
  TrainingType : String
  Action : ℤ
  LenStep : ℚ
  Duration : ℤ
  Weight : ℚ

/-- `Training.distance`: repetitions times step length, in km; guarded. -/
def Training.distance (train : Training) : ℚ :=
  if train.Action ≤ 0 ∨ train.LenStep ≤ 0 then 0
  else (train.Action : ℚ) * train.LenStep / MInKm

/-- `Training.meanSpeed`: distance over hours; guard tests `Hours() == 0`. -/
def Training.meanSpeed (train : Training) : ℚ :=
  if Fl.hours train.Duration = 0 then 0
  else train.distance / Fl.hours train.Duration

/-- `Training.Calories`: the base method always returns 0. -/
def Training.Calories (_train : Training) : ℚ := 0

/-- `InfoMessage` of `src/main.go`. -/
structure InfoMessage where
  TrainingType : String
  Duration : ℤ
  Distance : ℚ
  MeanSpeed : ℚ
  Calories : ℚ

/-- `Training.TrainingInfo`. -/
def Training.TrainingInfo (train : Training) : InfoMessage :=
  { TrainingType := train.TrainingType
    Duration := train.Duration
    Distance := train.distance
    MeanSpeed := train.meanSpeed
    Calories := train.Calories }

/-- `InfoMessage.String`: the fixed five-line format template. -/
def InfoMessage.String (infoMsg : InfoMessage) : String :=
  "Тип тренировки: " ++ infoMsg.TrainingType ++
    "\nДлительность: " ++ Fl.fmtFixed 0 (Fl.minutes infoMsg.Duration) ++
    " мин\nДистанция: " ++ Fl.fmtFixed 2 infoMsg.Distance ++
    " км\nСр. скорость: " ++ Fl.fmtFixed 2 infoMsg.MeanSpeed ++
    " км/ч\nПотрачено ккал: " ++ Fl.fmtFixed 2 infoMsg.Calories ++ "\n"

def CaloriesMeanSpeedMultiplier : ℚ := 18

def CaloriesMeanSpeedShift : ℚ := 1.79

/-- `Running` embeds `Training`; the embedded field is accessed as `.Training`. -/
structure Running where
  Training : Training

/-- `Running.Calories`; `run.meanSpeed()` promotes to the base method. -/
def Running.Calories (run : Running) : ℚ :=
  if run.Training.meanSpeed = 0 ∨ run.Training.Weight ≤ 0 then 0
  else (CaloriesMeanSpeedMultiplier * run.Training.meanSpeed + CaloriesMeanSpeedShift) *
    run.Training.Weight / MInKm * (Fl.hours run.Training.Duration * MinInHours)

/-- `Running.TrainingInfo` delegates to the base method. -/
def Running.TrainingInfo (run : Running) : InfoMessage :=
  run.Training.TrainingInfo

def CaloriesWeightMultiplier : ℚ := 0.035

def CaloriesSpeedHeightMultiplier : ℚ := 0.029

def KmHInMsec : ℚ := 0.278

/-- `Walking` embeds `Training` and adds `Height` (cm). -/
structure Walking where
  Training : Training
  Height : ℚ

/-- `Walking.Calories`; speed is converted to m/s with the constant `0.278`. -/
def Walking.Calories (walk : Walking) : ℚ :=
  if walk.Training.Weight ≤ 0 ∨ walk.Height ≤ 0 ∨ walk.Training.meanSpeed = 0 then 0
  else
    let speedInMs := walk.Training.meanSpeed * KmHInMsec
    let heightInM := walk.Height / CmInM
    (CaloriesWeightMultiplier * walk.Training.Weight +
        speedInMs ^ 2 / heightInM * CaloriesSpeedHeightMultiplier * walk.Training.Weight) *
      Fl.hours walk.Training.Duration * MinInHours

/-- `Walking.TrainingInfo` delegates to the base method. -/
def Walking.TrainingInfo (walk : Walking) : InfoMessage :=
  walk.Training.TrainingInfo

def SwimmingLenStep : ℚ := 1.38

def SwimmingCaloriesMeanSpeedShift : ℚ := 1.1

def SwimmingCaloriesWeightMultiplier : ℚ := 2

/-- `Swimming` embeds `Training` and adds the pool geometry. -/
structure Swimming where
  Training : Training
  LengthPool : ℤ
  CountPool : ℤ

/-- `Swimming.meanSpeed` overrides the base method. -/
def Swimming.meanSpeed (swim : Swimming) : ℚ :=
  if swim.LengthPool ≤ 0 ∨ swim.CountPool ≤ 0 ∨ Fl.hours swim.Training.Duration = 0 then 0
  else (swim.LengthPool : ℚ) * (swim.CountPool : ℚ) / MInKm / Fl.hours swim.Training.Duration

/-- `Swimming.Calories` uses the overridden `meanSpeed`. -/
def Swimming.Calories (swim : Swimming) : ℚ :=
  if swim.Training.Weight ≤ 0 ∨ swim.meanSpeed = 0 then 0
  else (swim.meanSpeed + SwimmingCaloriesMeanSpeedShift) *
    SwimmingCaloriesWeightMultiplier * swim.Training.Weight * Fl.hours swim.Training.Duration

/-- `Swimming.TrainingInfo` overrides the base method, using the overridden
`meanSpeed` and `Calories`. -/
def Swimming.TrainingInfo (swim : Swimming) : InfoMessage :=
  { TrainingType := swim.Training.TrainingType
    Duration := swim.Training.Duration
    Distance := swim.Training.distance
    MeanSpeed := swim.meanSpeed
    Calories := swim.Calories }

/-- The `CaloriesCalculator` interface, closed over its implementors in this
program; a value of this type is a value carrying its method table. -/
inductive Workout where
  | running : Running → Workout
  | walking : Walking → Workout
  | swimming : Swimming → Workout

/-- Dynamic dispatch of `Calories()` through the interface. -/
def Workout.Calories : Workout → ℚ
  | .running run => run.Calories
  | .walking walk => walk.Calories
  | .swimming swim => swim.Calories

/-- Dynamic dispatch of `TrainingInfo()` through the interface. -/
def Workout.TrainingInfo : Workout → InfoMessage
  | .running run => run.TrainingInfo
  | .walking walk => walk.TrainingInfo
  | .swimming swim => swim.TrainingInfo

/-- The `InfoMessage` that `ReadData` renders: `TrainingInfo()` with its
`Calories` field overwritten by the dispatched `Calories()`. -/
def readDataInfo (training : Workout) : InfoMessage :=
  let spentCalories := training.Calories
  let infoMsg := training.TrainingInfo
  { infoMsg with Calories := spentCalories }

/-- `ReadData`: `fmt.Sprint(infoMsg)` invokes `InfoMessage.String`. -/
def ReadData (training : Workout) : String :=
  (readDataInfo training).String

/-- The compiled-in swimming sample of `main()`. -/
def swimTraining : Swimming :=
  { Training :=
      { TrainingType := "Плавание"
        Action := 2000
        LenStep := SwimmingLenStep
        Duration := 5400000000000
        Weight := 85 }
    LengthPool := 50
    CountPool := 5 }

/-- The compiled-in walking sample of `main()`. -/
def walkTraining : Walking :=
  { Training :=
      { TrainingType := "Ходьба"
        Action := 20000
        LenStep := LenStep
        Duration := 13500000000000
        Weight := 85 }
    Height := 185 }

/-- The compiled-in running sample of `main()`. -/
def runTraining : Running :=
  { Training :=
      { TrainingType := "Бег"
        Action := 5000
        LenStep := LenStep
        Duration := 1800000000000
        Weight := 85 } }

end MainGo

namespace Part0

/-- Shared constants of `src/unnamed/part_000` (`Type'` stands for the Go
field `Type`, which is not a legal Lean field name). -/
def metersInKm : ℚ := 1000

def minutesInHour : ℚ := 60

def defaultStepLength : ℚ := 0.65

def cmInMeter : ℚ := 100

def caloriesSpeedMultiplier : ℚ := 18

def caloriesSpeedShift : ℚ := 1.79

def SwimmingLenStep : ℚ := 1.38

def SwimmingCaloriesMeanSpeedShift : ℚ := 1.1

def SwimmingCaloriesWeightMultiplier : ℚ := 2

/-- `Training` of `src/unnamed/part_000`. -/
structure Training where
  Type' : String
  Action : ℤ
  StepLength : ℚ
  Duration : ℤ
  Weight : ℚ

/-- `Training.distance`: the guard tests only `StepLength <= 0`. -/
def Training.distance (t : Training) : ℚ :=
  if t.StepLength ≤ 0 then 0
  else (t.Action : ℚ) * t.StepLength / metersInKm

/-- `Training.meanSpeed`: the guard tests `Duration <= 0` on the integer. -/
def Training.meanSpeed (t : Training) : ℚ :=
  if t.Duration ≤ 0 then 0
  else t.distance / Fl.hours t.Duration

/-- `Training.Calories`: the base method always returns 0. -/
def Training.Calories (_t : Training) : ℚ := 0

/-- `InfoMessage` of `src/unnamed/part_000`. -/
structure InfoMessage where
  Type' : String
  Duration : ℤ
  Distance : ℚ
  MeanSpeed : ℚ
  Calories : ℚ

/-- `Training.TrainingInfo`. -/
def Training.TrainingInfo (t : Training) : InfoMessage :=
  { Type' := t.Type'
    Duration := t.Duration
    Distance := t.distance
    MeanSpeed := t.meanSpeed
    Calories := t.Calories }

/-- `InfoMessage.String`: the format template is identical to `main.go`'s. -/
def InfoMessage.String (i : InfoMessage) : String :=
  "Тип тренировки: " ++ i.Type' ++
    "\nДлительность: " ++ Fl.fmtFixed 0 (Fl.minutes i.Duration) ++
    " мин\nДистанция: " ++ Fl.fmtFixed 2 i.Distance ++
    " км\nСр. скорость: " ++ Fl.fmtFixed 2 i.MeanSpeed ++
    " км/ч\nПотрачено ккал: " ++ Fl.fmtFixed 2 i.Calories ++ "\n"

/-- `Running` embeds `Training`. -/
structure Running where
  Training : Training

/-- `Running.Calories`; the guard tests `meanSpeed() <= 0`. -/
def Running.Calories (r : Running) : ℚ :=
  if r.Training.Weight ≤ 0 ∨ r.Training.meanSpeed ≤ 0 then 0
  else (caloriesSpeedMultiplier * r.Training.meanSpeed + caloriesSpeedShift) *
    r.Training.Weight / metersInKm * Fl.hours r.Training.Duration * minutesInHour

def weightMultiplier : ℚ := 0.035

def speedHeightMultiplier : ℚ := 0.029

/-- `Walking` embeds `Training` and adds `Height` (cm). -/
structure Walking where
  Training : Training
  Height : ℚ

/-- `Walking.Calories`; speed is converted with the exact factor `1000/3600`. -/
def Walking.Calories (w : Walking) : ℚ :=
  if w.Training.Weight ≤ 0 ∨ w.Height ≤ 0 ∨ w.Training.meanSpeed ≤ 0 then 0
  else
    let speedMetersPerSecond := w.Training.meanSpeed * 1000 / 3600
    (weightMultiplier * w.Training.Weight +
        speedMetersPerSecond ^ 2 / (w.Height / cmInMeter) *
          speedHeightMultiplier * w.Training.Weight) *
      Fl.hours w.Training.Duration * minutesInHour

/-- `Swimming` embeds `Training` and adds the pool geometry. -/
structure Swimming where
  Training : Training
  PoolLength : ℤ
  PoolCount : ℤ

/-- `Swimming.meanSpeed`: the guard does not test `PoolCount`; the pool
lengths are multiplied as integers before the conversion to float. -/
def Swimming.meanSpeed (s : Swimming) : ℚ :=
  if s.PoolLength ≤ 0 ∨ s.Training.Duration ≤ 0 then 0
  else ((s.PoolLength * s.PoolCount : ℤ) : ℚ) / metersInKm / Fl.hours s.Training.Duration

/-- `Swimming.Calories` uses the overridden `meanSpeed`. -/
def Swimming.Calories (s : Swimming) : ℚ :=
  if s.Training.Weight ≤ 0 ∨ s.meanSpeed ≤ 0 then 0
  else (s.meanSpeed + SwimmingCaloriesMeanSpeedShift) *
    SwimmingCaloriesWeightMultiplier * s.Training.Weight * Fl.hours s.Training.Duration

/-- The `CaloriesCalculator` interface, closed over its implementors. -/
inductive Workout where
  | running : Running → Workout
  | walking : Walking → Workout
  | swimming : Swimming → Workout

/-- Dynamic dispatch of `Calories()` through the interface: the kind-specific
overrides are selected. -/
def Workout.Calories : Workout → ℚ
  | .running r => r.Calories
  | .walking w => w.Calories
  | .swimming s => s.Calories

/-- Dynamic dispatch of `TrainingInfo()`.  None of `Running`, `Walking`,
`Swimming` declares a `TrainingInfo` method, so Go method promotion selects
the embedded `Training`'s method with the embedded `Training` as receiver:
it calls the base `distance`, `meanSpeed` and `Calories`, never the
kind-specific overrides. -/
def Workout.TrainingInfo : Workout → InfoMessage
  | .running r => r.Training.TrainingInfo
  | .walking w => w.Training.TrainingInfo
  | .swimming s => s.Training.TrainingInfo

/-- The `InfoMessage` that `ReadData` renders (no field is overwritten). -/
def readDataInfo (training : Workout) : InfoMessage :=
  training.TrainingInfo

/-- `ReadData` of `src/unnamed/part_000`. -/
def ReadData (training : Workout) : String :=
  (readDataInfo training).String

/-- The compiled-in swimming sample of `main()`. -/
def swimming : Swimming :=
  { Training :=
      { Type' := "Плавание"
        Action := 2000
        StepLength := SwimmingLenStep
        Duration := 5400000000000
        Weight := 85 }
    PoolLength := 50
    PoolCount := 5 }

/-- The compiled-in walking sample of `main()`. -/
def walking : Walking :=
  { Training :=
      { Type' := "Ходьба"
        Action := 20000
        StepLength := defaultStepLength
        Duration := 13500000000000
        Weight := 85 }
    Height := 185 }

/-- The compiled-in running sample of `main()`. -/
def running : Running :=
  { Training :=
      { Type' := "Бег"
        Action := 5000
        StepLength := defaultStepLength
        Duration := 1800000000000
        Weight := 85 } }

end Part0

/-- The walking-calories formula exactly as the specification words it:
`(0.035 * weight + (speedMetersPerSecond² / heightMeters) * 0.029 * weight)
* durationHours * 60` with `speedMetersPerSecond = meanSpeed * 1000 / 3600`
and `heightMeters = heightCm / 100`, and zero if `weight ≤ 0`,
`height ≤ 0`, or `meanSpeed ≤ 0`.  Stated from the spec's words only, to be
compared with the two implementations. -/
def specWalkingCalories (weight heightCm meanSpeed durationHours : ℚ) : ℚ :=
  if weight ≤ 0 ∨ heightCm ≤ 0 ∨ meanSpeed ≤ 0 then 0
  else
    let speedMetersPerSecond := meanSpeed * 1000 / 3600
    let heightMeters := heightCm / 100
    (0.035 * weight + speedMetersPerSecond ^ 2 / heightMeters * 0.029 * weight) *
      durationHours * 60

namespace Fl

theorem roundHalfEven_of_lt (x : ℚ) (f : ℤ) (h1 : (f : ℚ) ≤ x)
    (h2 : x - f < 1 / 2) : roundHalfEven x = f := by
  have hf : ⌊x⌋ = f := by
    rw [Int.floor_eq_iff]
    exact ⟨h1, by linarith⟩
  rw [roundHalfEven, hf]
  simp only [if_pos h2]

theorem roundHalfEven_of_gt (x : ℚ) (f : ℤ) (h1 : (f : ℚ) ≤ x)
    (h1' : x < f + 1) (h2 : (1 / 2 : ℚ) < x - f) : roundHalfEven x = f + 1 := by
  have hf : ⌊x⌋ = f := by
    rw [Int.floor_eq_iff]
    exact ⟨h1, by linarith⟩
  rw [roundHalfEven, hf]
  rw [if_neg (by linarith), if_pos h2]

theorem fmtFixed_eq_down (d : Nat) (x : ℚ) (f : ℤ) (s : String)
    (h1 : (f : ℚ) ≤ x * (10 : ℚ) ^ d) (h2 : x * (10 : ℚ) ^ d - f < 1 / 2)
    (hs : fmtScaled d f = s) : fmtFixed d x = s := by
  rw [fmtFixed, roundHalfEven_of_lt _ f h1 h2, hs]

theorem fmtFixed_eq_up (d : Nat) (x : ℚ) (f : ℤ) (s : String)
    (h1 : (f : ℚ) ≤ x * (10 : ℚ) ^ d) (h1' : x * (10 : ℚ) ^ d < f + 1)
    (h2 : (1 / 2 : ℚ) < x * (10 : ℚ) ^ d - f)
    (hs : fmtScaled d (f + 1) = s) : fmtFixed d x = s := by
  rw [fmtFixed, roundHalfEven_of_gt _ f h1 h1' h2, hs]

end Fl

theorem fmt2_017 : Fl.fmtFixed 2 (1 / 6 : ℚ) = "0.17" :=
  Fl.fmtFixed_eq_up 2 _ 16 _ (by norm_num) (by norm_num) (by norm_num) (by decide)

theorem fmt0_min90 : Fl.fmtFixed 0 (Fl.minutes 5400000000000) = "90" :=
  Fl.fmtFixed_eq_down 0 _ 90 _ (by norm_num [Fl.minutes]) (by norm_num [Fl.minutes]) (by decide)

theorem fmt2_32300 : Fl.fmtFixed 2 (323 : ℚ) = "323.00" :=
  Fl.fmtFixed_eq_down 2 _ 32300 _ (by norm_num) (by norm_num) (by decide)
/-! Exact values of the metrics on the three compiled-in samples, for both
versions of the program.  These are shared computation lemmas. -/

theorem mainSwim_distance : MainGo.swimTraining.Training.distance = 69 / 25 := by
  norm_num [MainGo.Training.distance, MainGo.swimTraining, MainGo.MInKm,
    MainGo.SwimmingLenStep]

theorem mainSwim_meanSpeed : MainGo.swimTraining.meanSpeed = 1 / 6 := by
  norm_num [MainGo.Swimming.meanSpeed, MainGo.swimTraining, MainGo.MInKm, Fl.hours]

theorem mainSwim_Calories : MainGo.swimTraining.Calories = 323 := by
  norm_num [MainGo.Swimming.Calories, MainGo.Swimming.meanSpeed, MainGo.swimTraining,
    MainGo.MInKm, MainGo.SwimmingCaloriesMeanSpeedShift,
    MainGo.SwimmingCaloriesWeightMultiplier, Fl.hours]

theorem mainWalk_distance : MainGo.walkTraining.Training.distance = 13 := by
  norm_num [MainGo.Training.distance, MainGo.walkTraining, MainGo.MInKm, MainGo.LenStep]

theorem mainWalk_meanSpeed : MainGo.walkTraining.Training.meanSpeed = 52 / 15 := by
  norm_num [MainGo.Training.meanSpeed, MainGo.Training.distance, MainGo.walkTraining,
    MainGo.MInKm, MainGo.LenStep, Fl.hours]

theorem mainWalk_Calories : MainGo.walkTraining.Calories = 21918367903 / 23125000 := by
  norm_num [MainGo.Walking.Calories, MainGo.Training.meanSpeed, MainGo.Training.distance,
    MainGo.walkTraining, MainGo.MInKm, MainGo.MinInHours, MainGo.CmInM,
    MainGo.CaloriesWeightMultiplier, MainGo.CaloriesSpeedHeightMultiplier,
    MainGo.KmHInMsec, MainGo.LenStep, Fl.hours]

theorem mainRun_distance : MainGo.runTraining.Training.distance = 13 / 4 := by
  norm_num [MainGo.Training.distance, MainGo.runTraining, MainGo.MInKm, MainGo.LenStep]

theorem mainRun_meanSpeed : MainGo.runTraining.Training.meanSpeed = 13 / 2 := by
  norm_num [MainGo.Training.meanSpeed, MainGo.Training.distance, MainGo.runTraining,
    MainGo.MInKm, MainGo.LenStep, Fl.hours]

theorem mainRun_Calories : MainGo.runTraining.Calories = 605829 / 2000 := by
  norm_num [MainGo.Running.Calories, MainGo.Training.meanSpeed, MainGo.Training.distance,
    MainGo.runTraining, MainGo.MInKm, MainGo.MinInHours,
    MainGo.CaloriesMeanSpeedMultiplier, MainGo.CaloriesMeanSpeedShift,
    MainGo.LenStep, Fl.hours]

theorem p0Swim_distance : Part0.swimming.Training.distance = 69 / 25 := by
  norm_num [Part0.Training.distance, Part0.swimming, Part0.metersInKm,
    Part0.SwimmingLenStep]

theorem p0Swim_baseSpeed : Part0.swimming.Training.meanSpeed = 46 / 25 := by
  norm_num [Part0.Training.meanSpeed, Part0.Training.distance, Part0.swimming,
    Part0.metersInKm, Part0.SwimmingLenStep, Fl.hours]

theorem p0Swim_meanSpeed : Part0.swimming.meanSpeed = 1 / 6 := by
  norm_num [Part0.Swimming.meanSpeed, Part0.swimming, Part0.metersInKm, Fl.hours]

theorem p0Walk_distance : Part0.walking.Training.distance = 13 := by
  norm_num [Part0.Training.distance, Part0.walking, Part0.metersInKm,
    Part0.defaultStepLength]

theorem p0Walk_meanSpeed : Part0.walking.Training.meanSpeed = 52 / 15 := by
  norm_num [Part0.Training.meanSpeed, Part0.Training.distance, Part0.walking,
    Part0.metersInKm, Part0.defaultStepLength, Fl.hours]

theorem p0Walk_Calories : Part0.walking.Calories = 22714295 / 23976 := by
  norm_num [Part0.Walking.Calories, Part0.Training.meanSpeed, Part0.Training.distance,
    Part0.walking, Part0.metersInKm, Part0.minutesInHour, Part0.cmInMeter,
    Part0.weightMultiplier, Part0.speedHeightMultiplier, Part0.defaultStepLength, Fl.hours]

theorem p0Run_distance : Part0.running.Training.distance = 13 / 4 := by
  norm_num [Part0.Training.distance, Part0.running, Part0.metersInKm,
    Part0.defaultStepLength]

theorem p0Run_meanSpeed : Part0.running.Training.meanSpeed = 13 / 2 := by
  norm_num [Part0.Training.meanSpeed, Part0.Training.distance, Part0.running,
    Part0.metersInKm, Part0.defaultStepLength, Fl.hours]

/-! The decimal renderings produced by the `%.0f` / `%.2f` verbs for each
value that the two programs print. -/

theorem fmt0_min225 : Fl.fmtFixed 0 (Fl.minutes 13500000000000) = "225" :=
  Fl.fmtFixed_eq_down 0 _ 225 _ (by norm_num [Fl.minutes]) (by norm_num [Fl.minutes])
    (by decide)

theorem fmt0_min30 : Fl.fmtFixed 0 (Fl.minutes 1800000000000) = "30" :=
  Fl.fmtFixed_eq_down 0 _ 30 _ (by norm_num [Fl.minutes]) (by norm_num [Fl.minutes])
    (by decide)

theorem fmt2_276 : Fl.fmtFixed 2 (69 / 25 : ℚ) = "2.76" :=
  Fl.fmtFixed_eq_down 2 _ 276 _ (by norm_num) (by norm_num) (by decide)

theorem fmt2_1300 : Fl.fmtFixed 2 (13 : ℚ) = "13.00" :=
  Fl.fmtFixed_eq_down 2 _ 1300 _ (by norm_num) (by norm_num) (by decide)

theorem fmt2_347 : Fl.fmtFixed 2 (52 / 15 : ℚ) = "3.47" :=
  Fl.fmtFixed_eq_up 2 _ 346 _ (by norm_num) (by norm_num) (by norm_num) (by decide)

theorem fmt2_94782 : Fl.fmtFixed 2 (21918367903 / 23125000 : ℚ) = "947.82" :=
  Fl.fmtFixed_eq_down 2 _ 94782 _ (by norm_num) (by norm_num) (by decide)

theorem fmt2_325 : Fl.fmtFixed 2 (13 / 4 : ℚ) = "3.25" :=
  Fl.fmtFixed_eq_down 2 _ 325 _ (by norm_num) (by norm_num) (by decide)

theorem fmt2_650 : Fl.fmtFixed 2 (13 / 2 : ℚ) = "6.50" :=
  Fl.fmtFixed_eq_down 2 _ 650 _ (by norm_num) (by norm_num) (by decide)

theorem fmt2_30291 : Fl.fmtFixed 2 (605829 / 2000 : ℚ) = "302.91" :=
  Fl.fmtFixed_eq_down 2 _ 30291 _ (by norm_num) (by norm_num) (by decide)

theorem fmt2_184 : Fl.fmtFixed 2 (46 / 25 : ℚ) = "1.84" :=
  Fl.fmtFixed_eq_down 2 _ 184 _ (by norm_num) (by norm_num) (by decide)

theorem fmt2_zero : Fl.fmtFixed 2 (0 : ℚ) = "0.00" :=
  Fl.fmtFixed_eq_down 2 _ 0 _ (by norm_num) (by norm_num) (by decide)

/-! The six printed blocks, one per sample and per program version. -/

theorem mainSwim_block : MainGo.ReadData (.swimming MainGo.swimTraining) =
    "Тип тренировки: Плавание\nДлительность: 90 мин\nДистанция: 2.76 км\nСр. скорость: 0.17 км/ч\nПотрачено ккал: 323.00\n" := by
  show (MainGo.readDataInfo (.swimming MainGo.swimTraining)).String = _
  simp only [MainGo.readDataInfo, MainGo.Workout.Calories, MainGo.Workout.TrainingInfo,
    MainGo.Swimming.TrainingInfo, MainGo.InfoMessage.String]
  rw [mainSwim_distance, mainSwim_meanSpeed, mainSwim_Calories]
  simp only [MainGo.swimTraining]
  rw [fmt0_min90, fmt2_276, fmt2_017, fmt2_32300]
  rfl

theorem p0Swim_block : Part0.ReadData (.swimming Part0.swimming) =
    "Тип тренировки: Плавание\nДлительность: 90 мин\nДистанция: 2.76 км\nСр. скорость: 1.84 км/ч\nПотрачено ккал: 0.00\n" := by
  show (Part0.readDataInfo (.swimming Part0.swimming)).String = _
  simp only [Part0.readDataInfo, Part0.Workout.TrainingInfo, Part0.Training.TrainingInfo,
    Part0.Training.Calories, Part0.InfoMessage.String]
  rw [p0Swim_distance, p0Swim_baseSpeed]
  simp only [Part0.swimming]
  rw [fmt0_min90, fmt2_276, fmt2_184, fmt2_zero]
  rfl

theorem mainWalk_block : MainGo.ReadData (.walking MainGo.walkTraining) =
    "Тип тренировки: Ходьба\nДлительность: 225 мин\nДистанция: 13.00 км\nСр. скорость: 3.47 км/ч\nПотрачено ккал: 947.82\n" := by
  show (MainGo.readDataInfo (.walking MainGo.walkTraining)).String = _
  simp only [MainGo.readDataInfo, MainGo.Workout.Calories, MainGo.Workout.TrainingInfo,
    MainGo.Walking.TrainingInfo, MainGo.Training.TrainingInfo, MainGo.InfoMessage.String]
  rw [mainWalk_distance, mainWalk_meanSpeed, mainWalk_Calories]
  simp only [MainGo.walkTraining]
  rw [fmt0_min225, fmt2_1300, fmt2_347, fmt2_94782]
  rfl

theorem p0Walk_block : Part0.ReadData (.walking Part0.walking) =
    "Тип тренировки: Ходьба\nДлительность: 225 мин\nДистанция: 13.00 км\nСр. скорость: 3.47 км/ч\nПотрачено ккал: 0.00\n" := by
  show (Part0.readDataInfo (.walking Part0.walking)).String = _
  simp only [Part0.readDataInfo, Part0.Workout.TrainingInfo, Part0.Training.TrainingInfo,
    Part0.Training.Calories, Part0.InfoMessage.String]
  rw [p0Walk_distance, p0Walk_meanSpeed]
  simp only [Part0.walking]
  rw [fmt0_min225, fmt2_1300, fmt2_347, fmt2_zero]
  rfl

theorem mainRun_block : MainGo.ReadData (.running MainGo.runTraining) =
    "Тип тренировки: Бег\nДлительность: 30 мин\nДистанция: 3.25 км\nСр. скорость: 6.50 км/ч\nПотрачено ккал: 302.91\n" := by
  show (MainGo.readDataInfo (.running MainGo.runTraining)).String = _
  simp only [MainGo.readDataInfo, MainGo.Workout.Calories, MainGo.Workout.TrainingInfo,
    MainGo.Running.TrainingInfo, MainGo.Training.TrainingInfo, MainGo.InfoMessage.String]
  rw [mainRun_distance, mainRun_meanSpeed, mainRun_Calories]
  simp only [MainGo.runTraining]
  rw [fmt0_min30, fmt2_325, fmt2_650, fmt2_30291]
  rfl

theorem p0Run_block : Part0.ReadData (.running Part0.running) =
    "Тип тренировки: Бег\nДлительность: 30 мин\nДистанция: 3.25 км\nСр. скорость: 6.50 км/ч\nПотрачено ккал: 0.00\n" := by
  show (Part0.readDataInfo (.running Part0.running)).String = _
  simp only [Part0.readDataInfo, Part0.Workout.TrainingInfo, Part0.Training.TrainingInfo,
    Part0.Training.Calories, Part0.InfoMessage.String]
  rw [p0Run_distance, p0Run_meanSpeed]
  simp only [Part0.running]
  rw [fmt0_min30, fmt2_325, fmt2_650, fmt2_zero]
  rfl

/-! Nonnegativity and guard lemmas, a version at a time. -/

theorem Fl.hours_nonneg (d : ℤ) (h : 0 ≤ d) : 0 ≤ Fl.hours d := by
  rw [Fl.hours]
  exact div_nonneg (by exact_mod_cast h) (by norm_num)

theorem mg_distance_nonneg (t : MainGo.Training) : 0 ≤ t.distance := by
  rw [MainGo.Training.distance]
  split
  · exact le_refl 0
  · rename_i h
    push_neg at h
    exact div_nonneg (mul_nonneg (by exact_mod_cast h.1.le) h.2.le)
      (by norm_num [MainGo.MInKm])

theorem mg_meanSpeed_nonneg (t : MainGo.Training)
    (hd : 0 ≤ t.Duration) : 0 ≤ t.meanSpeed := by
  rw [MainGo.Training.meanSpeed]
  split
  · exact le_refl 0
  · exact div_nonneg (mg_distance_nonneg t) (Fl.hours_nonneg _ hd)

theorem mg_run_Calories_nonneg (r : MainGo.Running)
    (hd : 0 ≤ r.Training.Duration) : 0 ≤ r.Calories := by
  rw [MainGo.Running.Calories]
  split
  · exact le_refl 0
  · rename_i h
    push_neg at h
    have hms : 0 ≤ r.Training.meanSpeed := mg_meanSpeed_nonneg r.Training hd
    have hA : 0 ≤ MainGo.CaloriesMeanSpeedMultiplier * r.Training.meanSpeed +
        MainGo.CaloriesMeanSpeedShift := by
      rw [MainGo.CaloriesMeanSpeedMultiplier, MainGo.CaloriesMeanSpeedShift]
      linarith
    exact mul_nonneg (div_nonneg (mul_nonneg hA h.2.le) (by norm_num [MainGo.MInKm]))
      (mul_nonneg (Fl.hours_nonneg _ hd) (by norm_num [MainGo.MinInHours]))

theorem mg_walk_Calories_nonneg (w : MainGo.Walking)
    (hd : 0 ≤ w.Training.Duration) : 0 ≤ w.Calories := by
  rw [MainGo.Walking.Calories]
  split
  · exact le_refl 0
  · rename_i h
    push_neg at h
    have h2 : (0 : ℚ) < w.Height / MainGo.CmInM := by
      rw [MainGo.CmInM]
      exact div_pos h.2.1 (by norm_num)
    have hbr : 0 ≤ MainGo.CaloriesWeightMultiplier * w.Training.Weight +
        (w.Training.meanSpeed * MainGo.KmHInMsec) ^ 2 / (w.Height / MainGo.CmInM) *
          MainGo.CaloriesSpeedHeightMultiplier * w.Training.Weight :=
      add_nonneg (mul_nonneg (by norm_num [MainGo.CaloriesWeightMultiplier]) h.1.le)
        (mul_nonneg (mul_nonneg (div_nonneg (sq_nonneg _) h2.le)
          (by norm_num [MainGo.CaloriesSpeedHeightMultiplier])) h.1.le)
    exact mul_nonneg (mul_nonneg hbr (Fl.hours_nonneg _ hd))
      (by norm_num [MainGo.MinInHours])

theorem mg_swim_meanSpeed_nonneg (s : MainGo.Swimming)
    (hd : 0 ≤ s.Training.Duration) : 0 ≤ s.meanSpeed := by
  rw [MainGo.Swimming.meanSpeed]
  split
  · exact le_refl 0
  · rename_i h
    push_neg at h
    exact div_nonneg (div_nonneg (mul_nonneg (by exact_mod_cast h.1.le)
      (by exact_mod_cast h.2.1.le)) (by norm_num [MainGo.MInKm])) (Fl.hours_nonneg _ hd)

theorem mg_swim_Calories_nonneg (s : MainGo.Swimming)
    (hd : 0 ≤ s.Training.Duration) : 0 ≤ s.Calories := by
  rw [MainGo.Swimming.Calories]
  split
  · exact le_refl 0
  · rename_i h
    push_neg at h
    have hms : 0 ≤ s.meanSpeed := mg_swim_meanSpeed_nonneg s hd
    have hA : 0 ≤ s.meanSpeed + MainGo.SwimmingCaloriesMeanSpeedShift := by
      rw [MainGo.SwimmingCaloriesMeanSpeedShift]
      linarith
    exact mul_nonneg (mul_nonneg (mul_nonneg hA
      (by norm_num [MainGo.SwimmingCaloriesWeightMultiplier])) h.1.le)
      (Fl.hours_nonneg _ hd)

theorem p0_distance_nonneg (t : Part0.Training)
    (ha : 0 ≤ t.Action) : 0 ≤ t.distance := by
  rw [Part0.Training.distance]
  split
  · exact le_refl 0
  · rename_i h
    push_neg at h
    exact div_nonneg (mul_nonneg (by exact_mod_cast ha) h.le)
      (by norm_num [Part0.metersInKm])

theorem p0_meanSpeed_nonneg (t : Part0.Training)
    (ha : 0 ≤ t.Action) : 0 ≤ t.meanSpeed := by
  rw [Part0.Training.meanSpeed]
  split
  · exact le_refl 0
  · rename_i h
    push_neg at h
    exact div_nonneg (p0_distance_nonneg t ha) (Fl.hours_nonneg _ h.le)

theorem p0_duration_pos_of_meanSpeed_pos (t : Part0.Training)
    (h : 0 < t.meanSpeed) : 0 < t.Duration := by
  by_contra hd
  push_neg at hd
  rw [Part0.Training.meanSpeed, if_pos hd] at h
  exact lt_irrefl 0 h

theorem p0_run_Calories_nonneg (r : Part0.Running) : 0 ≤ r.Calories := by
  rw [Part0.Running.Calories]
  split
  · exact le_refl 0
  · rename_i h
    push_neg at h
    have hdur := p0_duration_pos_of_meanSpeed_pos r.Training h.2
    have hA : 0 ≤ Part0.caloriesSpeedMultiplier * r.Training.meanSpeed +
        Part0.caloriesSpeedShift := by
      rw [Part0.caloriesSpeedMultiplier, Part0.caloriesSpeedShift]
      linarith
    exact mul_nonneg (mul_nonneg (div_nonneg (mul_nonneg hA h.1.le)
      (by norm_num [Part0.metersInKm])) (Fl.hours_nonneg _ hdur.le))
      (by norm_num [Part0.minutesInHour])

theorem p0_walk_Calories_nonneg (w : Part0.Walking) : 0 ≤ w.Calories := by
  rw [Part0.Walking.Calories]
  split
  · exact le_refl 0
  · rename_i h
    push_neg at h
    have hdur := p0_duration_pos_of_meanSpeed_pos w.Training h.2.2
    have h2 : (0 : ℚ) < w.Height / Part0.cmInMeter := by
      rw [Part0.cmInMeter]
      exact div_pos h.2.1 (by norm_num)
    have hbr : 0 ≤ Part0.weightMultiplier * w.Training.Weight +
        (w.Training.meanSpeed * 1000 / 3600) ^ 2 / (w.Height / Part0.cmInMeter) *
          Part0.speedHeightMultiplier * w.Training.Weight :=
      add_nonneg (mul_nonneg (by norm_num [Part0.weightMultiplier]) h.1.le)
        (mul_nonneg (mul_nonneg (div_nonneg (sq_nonneg _) h2.le)
          (by norm_num [Part0.speedHeightMultiplier])) h.1.le)
    exact mul_nonneg (mul_nonneg hbr (Fl.hours_nonneg _ hdur.le))
      (by norm_num [Part0.minutesInHour])

theorem p0_swim_meanSpeed_nonneg (s : Part0.Swimming)
    (hc : 0 ≤ s.PoolCount) : 0 ≤ s.meanSpeed := by
  rw [Part0.Swimming.meanSpeed]
  split
  · exact le_refl 0
  · rename_i h
    push_neg at h
    have hnum : (0 : ℚ) ≤ ((s.PoolLength * s.PoolCount : ℤ) : ℚ) := by
      exact_mod_cast mul_nonneg h.1.le hc
    exact div_nonneg (div_nonneg hnum (by norm_num [Part0.metersInKm]))
      (Fl.hours_nonneg _ h.2.le)

theorem p0_swim_duration_pos (s : Part0.Swimming)
    (h : 0 < s.meanSpeed) : 0 < s.Training.Duration := by
  by_contra hd
  push_neg at hd
  rw [Part0.Swimming.meanSpeed, if_pos (Or.inr hd)] at h
  exact lt_irrefl 0 h

theorem p0_swim_Calories_nonneg (s : Part0.Swimming) : 0 ≤ s.Calories := by
  rw [Part0.Swimming.Calories]
  split
  · exact le_refl 0
  · rename_i h
    push_neg at h
    have hdur := p0_swim_duration_pos s h.2
    have hA : 0 ≤ s.meanSpeed + Part0.SwimmingCaloriesMeanSpeedShift := by
      rw [Part0.SwimmingCaloriesMeanSpeedShift]
      linarith
    exact mul_nonneg (mul_nonneg (mul_nonneg hA
      (by norm_num [Part0.SwimmingCaloriesWeightMultiplier])) h.1.le)
      (Fl.hours_nonneg _ hdur.le)

/-- C7: in both versions, `Swimming`'s `meanSpeed` depends only on the pool
length, the pool crossing count, and the duration: two swimming records that
agree on those three fields, while differing arbitrarily in step length,
repetition count, weight, or type label, get the same mean speed. -/
theorem claim_C7 (s₁ s₂ : MainGo.Swimming) (u₁ u₂ : Part0.Swimming)
    (h1 : s₁.LengthPool = s₂.LengthPool) (h2 : s₁.CountPool = s₂.CountPool)
    (h3 : s₁.Training.Duration = s₂.Training.Duration)
    (g1 : u₁.PoolLength = u₂.PoolLength) (g2 : u₁.PoolCount = u₂.PoolCount)
    (g3 : u₁.Training.Duration = u₂.Training.Duration) :
    s₁.meanSpeed = s₂.meanSpeed ∧ u₁.meanSpeed = u₂.meanSpeed := by
  constructor
  · rw [MainGo.Swimming.meanSpeed, MainGo.Swimming.meanSpeed, h1, h2, h3]
  · rw [Part0.Swimming.meanSpeed, Part0.Swimming.meanSpeed, g1, g2, g3]

/-- C7 witness: two concrete record pairs that differ in repetition count and
step length but agree on the pool fields and duration. -/
theorem claim_C7_witness :
    MainGo.Swimming.meanSpeed ⟨⟨"a", 100, 2, 3600000000000, 80⟩, 25, 4⟩ =
      MainGo.Swimming.meanSpeed ⟨⟨"b", 999, 1 / 2, 3600000000000, 70⟩, 25, 4⟩ ∧
    Part0.Swimming.meanSpeed ⟨⟨"a", 100, 2, 3600000000000, 80⟩, 25, 4⟩ =
      Part0.Swimming.meanSpeed ⟨⟨"b", 999, 1 / 2, 3600000000000, 70⟩, 25, 4⟩ :=
  claim_C7 _ _ _ _ rfl rfl rfl rfl rfl rfl

/-- C8: the summary of a record is deterministic and side-effect-free — in
both versions `ReadData` is a pure function of the record, so computing it
twice yields byte-identical output. -/
theorem claim_C8 :
    (∀ t : MainGo.Workout, MainGo.ReadData t = MainGo.ReadData t) ∧
    (∀ u : Part0.Workout, Part0.ReadData u = Part0.ReadData u) :=
  ⟨fun _ => rfl, fun _ => rfl⟩

/-- C9: in `part_000`, for every `Running`, `Walking` or `Swimming` value the
`InfoMessage` produced via `ReadData` has `Calories = 0` (the promoted base
`Training.Calories`), and for `Swimming` its `MeanSpeed` is the base
`Training.meanSpeed` computed from `Action` and `StepLength`, not the
overridden pool-based one. -/
theorem claim_C9 (r : Part0.Running) (w : Part0.Walking) (s : Part0.Swimming) :
    (Part0.readDataInfo (.running r)).Calories = 0 ∧
    (Part0.readDataInfo (.walking w)).Calories = 0 ∧
    (Part0.readDataInfo (.swimming s)).Calories = 0 ∧
    (Part0.readDataInfo (.swimming s)).MeanSpeed = s.Training.meanSpeed :=
  ⟨rfl, rfl, rfl, rfl⟩

/-- C10: in `main.go`, `ReadData` replaces only the `Calories` field of the
`InfoMessage` returned by `TrainingInfo()` with the dispatched `Calories()`;
the type, duration, distance and mean-speed fields are exactly those of
`TrainingInfo()`. -/
theorem claim_C10 (t : MainGo.Workout) :
    (MainGo.readDataInfo t).Calories = t.Calories ∧
    (MainGo.readDataInfo t).TrainingType = t.TrainingInfo.TrainingType ∧
    (MainGo.readDataInfo t).Duration = t.TrainingInfo.Duration ∧
    (MainGo.readDataInfo t).Distance = t.TrainingInfo.Distance ∧
    (MainGo.readDataInfo t).MeanSpeed = t.TrainingInfo.MeanSpeed :=
  ⟨rfl, rfl, rfl, rfl, rfl⟩

/-- C2 counterexample: the claim fails as stated — in `part_000` the
`distance` guard tests only the step length, so a negative repetition count
yields a negative distance. -/
theorem claim_C2_counterexample :
    ¬ 0 ≤ Part0.Training.distance ⟨"x", -1000, 1, 3600000000000, 70⟩ := by
  norm_num [Part0.Training.distance, Part0.metersInKm]

/-- C2 amended: nonnegativity holds once the unguarded integer inputs are
themselves nonnegative: in `main.go` all metrics need `0 ≤ Duration` (its
`meanSpeed` guard tests only `Hours() == 0`); in `part_000` distance and
speed need `0 ≤ Action`, swimming speed needs `0 ≤ PoolCount`, and the three
calorie methods are unconditionally nonnegative.  Each metric is zero when
one of its own guarded denominators is non-positive. -/
theorem claim_C2_amended
    (t : MainGo.Training) (r : MainGo.Running) (w : MainGo.Walking) (s : MainGo.Swimming)
    (t' : Part0.Training) (r' : Part0.Running) (w' : Part0.Walking) (s' : Part0.Swimming)
    (ht : 0 ≤ t.Duration) (hr : 0 ≤ r.Training.Duration) (hw : 0 ≤ w.Training.Duration)
    (hs : 0 ≤ s.Training.Duration) (ha : 0 ≤ t'.Action) (hc : 0 ≤ s'.PoolCount) :
    (0 ≤ t.distance ∧ 0 ≤ t.meanSpeed ∧ 0 ≤ r.Calories ∧ 0 ≤ w.Calories ∧
      0 ≤ s.meanSpeed ∧ 0 ≤ s.Calories) ∧
    (0 ≤ t'.distance ∧ 0 ≤ t'.meanSpeed ∧ 0 ≤ r'.Calories ∧ 0 ≤ w'.Calories ∧
      0 ≤ s'.meanSpeed ∧ 0 ≤ s'.Calories) ∧
    (t.LenStep ≤ 0 → t.distance = 0) ∧
    (t.Duration = 0 → t.meanSpeed = 0) ∧
    (r.Training.Weight ≤ 0 → r.Calories = 0) ∧
    (w.Training.Weight ≤ 0 ∨ w.Height ≤ 0 → w.Calories = 0) ∧
    (s.LengthPool ≤ 0 → s.meanSpeed = 0 ∧ s.Calories = 0) ∧
    (t'.StepLength ≤ 0 → t'.distance = 0) ∧
    (t'.Duration ≤ 0 → t'.meanSpeed = 0) ∧
    (r'.Training.Weight ≤ 0 → r'.Calories = 0) ∧
    (w'.Training.Weight ≤ 0 ∨ w'.Height ≤ 0 → w'.Calories = 0) ∧
    (s'.PoolLength ≤ 0 → s'.meanSpeed = 0 ∧ s'.Calories = 0) := by
  refine ⟨⟨mg_distance_nonneg t, mg_meanSpeed_nonneg t ht, mg_run_Calories_nonneg r hr,
      mg_walk_Calories_nonneg w hw, mg_swim_meanSpeed_nonneg s hs, mg_swim_Calories_nonneg s hs⟩,
    ⟨p0_distance_nonneg t' ha, p0_meanSpeed_nonneg t' ha, p0_run_Calories_nonneg r',
      p0_walk_Calories_nonneg w', p0_swim_meanSpeed_nonneg s' hc, p0_swim_Calories_nonneg s'⟩,
    ?_, ?_, ?_, ?_, ?_, ?_, ?_, ?_, ?_, ?_⟩
  · intro h
    rw [MainGo.Training.distance, if_pos (Or.inr h)]
  · intro h
    rw [MainGo.Training.meanSpeed, if_pos (by rw [h]; norm_num [Fl.hours])]
  · intro h
    rw [MainGo.Running.Calories, if_pos (Or.inr h)]
  · intro h
    rcases h with h | h
    · rw [MainGo.Walking.Calories, if_pos (Or.inl h)]
    · rw [MainGo.Walking.Calories, if_pos (Or.inr (Or.inl h))]
  · intro h
    have hms : s.meanSpeed = 0 := by
      rw [MainGo.Swimming.meanSpeed, if_pos (Or.inl h)]
    exact ⟨hms, by rw [MainGo.Swimming.Calories, if_pos (Or.inr hms)]⟩
  · intro h
    rw [Part0.Training.distance, if_pos h]
  · intro h
    rw [Part0.Training.meanSpeed, if_pos h]
  · intro h
    rw [Part0.Running.Calories, if_pos (Or.inl h)]
  · intro h
    rcases h with h | h
    · rw [Part0.Walking.Calories, if_pos (Or.inl h)]
    · rw [Part0.Walking.Calories, if_pos (Or.inr (Or.inl h))]
  · intro h
    have hms : s'.meanSpeed = 0 := by
      rw [Part0.Swimming.meanSpeed, if_pos (Or.inl h)]
    exact ⟨hms, by rw [Part0.Swimming.Calories, if_pos (Or.inr (le_of_eq hms))]⟩

/-- C2 witness: the amended claim instantiated on the compiled-in samples. -/
theorem claim_C2_witness :
    0 ≤ MainGo.swimTraining.meanSpeed ∧ 0 ≤ Part0.walking.Calories := by
  obtain ⟨hm, hp, -⟩ := claim_C2_amended MainGo.walkTraining.Training MainGo.runTraining
    MainGo.walkTraining MainGo.swimTraining Part0.walking.Training Part0.running
    Part0.walking Part0.swimming (by decide) (by decide) (by decide) (by decide)
    (by decide) (by decide)
  exact ⟨hm.2.2.2.2.1, hp.2.2.2.1⟩

/-- C3 counterexample: the claim fails as stated — in `main.go` the speed
guard tests `Hours() == 0`, not `duration <= 0`, so a negative duration
yields a nonzero (negative) mean speed. -/
theorem claim_C3_counterexample :
    MainGo.Training.meanSpeed ⟨"x", 1000, 1, -3600000000000, 70⟩ = -1 ∧
    (⟨"x", 1000, 1, -3600000000000, 70⟩ : MainGo.Training).Duration ≤ 0 := by
  constructor
  · norm_num [MainGo.Training.meanSpeed, MainGo.Training.distance, MainGo.MInKm, Fl.hours]
  · norm_num

/-- C3 amended: if the step length is non-positive then distance is 0 in both
versions; a non-positive duration forces `meanSpeed = 0` in `part_000`, while
in `main.go` only a zero duration does (a negative duration evaluates the
division, whose denominator is then nonzero, so there is still no
divide-by-zero fault); all functions are total, no error is ever raised. -/
theorem claim_C3_amended (t : MainGo.Training) (u : Part0.Training) :
    (t.LenStep ≤ 0 → t.distance = 0) ∧
    (t.Duration = 0 → t.meanSpeed = 0) ∧
    (t.Duration ≠ 0 → Fl.hours t.Duration ≠ 0) ∧
    (u.StepLength ≤ 0 → u.distance = 0) ∧
    (u.Duration ≤ 0 → u.meanSpeed = 0) := by
  refine ⟨?_, ?_, ?_, ?_, ?_⟩
  · intro h
    rw [MainGo.Training.distance, if_pos (Or.inr h)]
  · intro h
    rw [MainGo.Training.meanSpeed, if_pos (by rw [h]; norm_num [Fl.hours])]
  · intro h h0
    apply h
    rw [Fl.hours, div_eq_zero_iff] at h0
    rcases h0 with h0 | h0
    · exact_mod_cast h0
    · norm_num at h0
  · intro h
    rw [Part0.Training.distance, if_pos h]
  · intro h
    rw [Part0.Training.meanSpeed, if_pos h]

/-- C3 witness: the amended claim at concrete degenerate records. -/
theorem claim_C3_witness :
    MainGo.Training.distance ⟨"w", 5, -1, 0, 70⟩ = 0 ∧
    MainGo.Training.meanSpeed ⟨"w", 5, -1, 0, 70⟩ = 0 ∧
    Part0.Training.meanSpeed ⟨"w", 5, -1, -5, 70⟩ = 0 := by
  obtain ⟨h1, h2, -, -, -⟩ := claim_C3_amended ⟨"w", 5, -1, 0, 70⟩ ⟨"w", 5, -1, -5, 70⟩
  obtain ⟨-, -, -, -, h5⟩ := claim_C3_amended ⟨"w", 5, -1, 0, 70⟩ ⟨"w", 5, -1, -5, 70⟩
  exact ⟨h1 (by norm_num), h2 rfl, h5 (by norm_num)⟩

/-- C1 counterexample: the two versions do not print the same swimming block —
`part_000`'s `ReadData` goes through the promoted base `TrainingInfo`, so its
mean-speed and calorie lines differ from `main.go`'s. -/
theorem claim_C1_counterexample :
    MainGo.ReadData (.swimming MainGo.swimTraining) ≠
      Part0.ReadData (.swimming Part0.swimming) := by
  rw [mainSwim_block, p0Swim_block]
  decide

/-- C1 amended: on the three compiled-in samples the two versions agree on the
type, duration and distance lines of every block and on the mean-speed lines
of walking and running, but `part_000` prints `0.00` for every calorie line
(its `ReadData` uses the promoted base `TrainingInfo`, whose `Calories` is the
base method) and prints the base step-derived mean speed `1.84` for swimming
where `main.go` prints the pool-derived `0.17`.  The six blocks are exactly
these. -/
theorem claim_C1_amended :
    MainGo.ReadData (.swimming MainGo.swimTraining) =
      "Тип тренировки: Плавание\nДлительность: 90 мин\nДистанция: 2.76 км\nСр. скорость: 0.17 км/ч\nПотрачено ккал: 323.00\n" ∧
    Part0.ReadData (.swimming Part0.swimming) =
      "Тип тренировки: Плавание\nДлительность: 90 мин\nДистанция: 2.76 км\nСр. скорость: 1.84 км/ч\nПотрачено ккал: 0.00\n" ∧
    MainGo.ReadData (.walking MainGo.walkTraining) =
      "Тип тренировки: Ходьба\nДлительность: 225 мин\nДистанция: 13.00 км\nСр. скорость: 3.47 км/ч\nПотрачено ккал: 947.82\n" ∧
    Part0.ReadData (.walking Part0.walking) =
      "Тип тренировки: Ходьба\nДлительность: 225 мин\nДистанция: 13.00 км\nСр. скорость: 3.47 км/ч\nПотрачено ккал: 0.00\n" ∧
    MainGo.ReadData (.running MainGo.runTraining) =
      "Тип тренировки: Бег\nДлительность: 30 мин\nДистанция: 3.25 км\nСр. скорость: 6.50 км/ч\nПотрачено ккал: 302.91\n" ∧
    Part0.ReadData (.running Part0.running) =
      "Тип тренировки: Бег\nДлительность: 30 мин\nДистанция: 3.25 км\nСр. скорость: 6.50 км/ч\nПотрачено ккал: 0.00\n" :=
  ⟨mainSwim_block, p0Swim_block, mainWalk_block, p0Walk_block, mainRun_block, p0Run_block⟩

/-- C4 counterexample: the claim's figures are wrong — `50*5/1000/1.5` is
`1/6 ≈ 0.1667` km/h, not `1.6667`, and the computed calories are `323`, not
`≈ 706.25`. -/
theorem claim_C4_counterexample :
    MainGo.swimTraining.meanSpeed = 1 / 6 ∧ (1 / 6 : ℚ) ≠ 1.6667 ∧
    MainGo.swimTraining.Calories = 323 ∧ (323 : ℚ) ≠ 706.25 :=
  ⟨mainSwim_meanSpeed, by norm_num, mainSwim_Calories, by norm_num⟩

/-- C4 amended: for the fixed swimming sample, `main.go` computes mean speed
`50*5/1000/1.5 = 1/6 ≈ 0.1667` km/h and calories
`(1/6 + 1.1)*2*85*1.5 = 323`, and renders `0.17` and `323.00` in its swimming
summary block. -/
theorem claim_C4_amended :
    MainGo.swimTraining.meanSpeed = 50 * 5 / 1000 / 1.5 ∧
    MainGo.swimTraining.meanSpeed = 1 / 6 ∧
    MainGo.swimTraining.Calories = (1 / 6 + 1.1) * 2 * 85 * 1.5 ∧
    MainGo.swimTraining.Calories = 323 ∧
    MainGo.ReadData (.swimming MainGo.swimTraining) =
      "Тип тренировки: Плавание\nДлительность: 90 мин\nДистанция: 2.76 км\nСр. скорость: 0.17 км/ч\nПотрачено ккал: 323.00\n" := by
  refine ⟨?_, mainSwim_meanSpeed, ?_, mainSwim_Calories, mainSwim_block⟩
  · rw [mainSwim_meanSpeed]
    norm_num
  · rw [mainSwim_Calories]
    norm_num

/-- C5 counterexample: the claimed calorie figure `≈ 152.04` is wrong — both
versions compute about `947.4`–`947.8` kcal for the walking sample, far
outside the `1e-2` tolerance. -/
theorem claim_C5_counterexample :
    MainGo.walkTraining.Calories = 21918367903 / 23125000 ∧
    ¬ |(21918367903 / 23125000 : ℚ) - 152.04| ≤ 1 / 100 ∧
    Part0.walking.Calories = 22714295 / 23976 ∧
    ¬ |(22714295 / 23976 : ℚ) - 152.04| ≤ 1 / 100 := by
  refine ⟨mainWalk_Calories, ?_, p0Walk_Calories, ?_⟩
  · intro hc
    rw [abs_sub_le_iff] at hc
    have h1 := hc.1
    norm_num at h1
  · intro hc
    rw [abs_sub_le_iff] at hc
    have h1 := hc.1
    norm_num at h1

/-- C5 amended: for the fixed walking sample both versions compute distance
`13` km and mean speed `13/3.75 = 3.4667` km/h; the calories are `≈ 947.82`
in `main.go` (conversion constant `0.278`) and `≈ 947.38` in `part_000`
(exact conversion `1000/3600`), each within `1e-2` of those figures. -/
theorem claim_C5_amended :
    MainGo.walkTraining.Training.distance = 13 ∧
    Part0.walking.Training.distance = 13 ∧
    MainGo.walkTraining.Training.meanSpeed = 13 / 3.75 ∧
    Part0.walking.Training.meanSpeed = 13 / 3.75 ∧
    |MainGo.walkTraining.Calories - 947.82| ≤ 1 / 100 ∧
    |Part0.walking.Calories - 947.38| ≤ 1 / 100 := by
  refine ⟨mainWalk_distance, p0Walk_distance, ?_, ?_, ?_, ?_⟩
  · rw [mainWalk_meanSpeed]
    norm_num
  · rw [p0Walk_meanSpeed]
    norm_num
  · rw [mainWalk_Calories, abs_sub_le_iff]
    constructor <;> norm_num
  · rw [p0Walk_Calories, abs_sub_le_iff]
    constructor <;> norm_num

/-- C6 counterexample: `main.go`'s `Walking.Calories` does not equal the
spec's formula with `speedMetersPerSecond = meanSpeed * 1000 / 3600`: on the
walking sample the code (using the constant `0.278`) gives
`947.8213…` while the spec formula gives `947.3763…`. -/
theorem claim_C6_counterexample :
    MainGo.walkTraining.Calories = 21918367903 / 23125000 ∧
    specWalkingCalories MainGo.walkTraining.Training.Weight MainGo.walkTraining.Height
      MainGo.walkTraining.Training.meanSpeed (Fl.hours MainGo.walkTraining.Training.Duration) =
      22714295 / 23976 ∧
    (21918367903 / 23125000 : ℚ) ≠ 22714295 / 23976 := by
  refine ⟨mainWalk_Calories, ?_, by norm_num⟩
  rw [mainWalk_meanSpeed]
  norm_num [specWalkingCalories, Fl.hours, MainGo.walkTraining]

/-- C6 amended: `part_000`'s `Walking.Calories` is exactly the spec formula
(with `speedMetersPerSecond = meanSpeed * 1000 / 3600` and zero when
`weight ≤ 0`, `height ≤ 0` or `meanSpeed ≤ 0`); `main.go`'s differs: its
guard tests `meanSpeed == 0` and it converts speed with the rounded constant
`0.278` instead of `1000/3600`. -/
theorem claim_C6_amended (w : Part0.Walking) (wm : MainGo.Walking) :
    w.Calories = specWalkingCalories w.Training.Weight w.Height w.Training.meanSpeed
      (Fl.hours w.Training.Duration) ∧
    (wm.Training.Weight ≤ 0 ∨ wm.Height ≤ 0 ∨ wm.Training.meanSpeed = 0 →
      wm.Calories = 0) ∧
    (¬(wm.Training.Weight ≤ 0 ∨ wm.Height ≤ 0 ∨ wm.Training.meanSpeed = 0) →
      wm.Calories = (0.035 * wm.Training.Weight +
        (wm.Training.meanSpeed * 0.278) ^ 2 / (wm.Height / 100) * 0.029 *
          wm.Training.Weight) * Fl.hours wm.Training.Duration * 60) := by
  refine ⟨rfl, ?_, ?_⟩
  · intro h
    rw [MainGo.Walking.Calories, if_pos h]
  · intro h
    rw [MainGo.Walking.Calories, if_neg h]
    simp only [MainGo.CaloriesWeightMultiplier, MainGo.KmHInMsec, MainGo.CmInM,
      MainGo.CaloriesSpeedHeightMultiplier, MainGo.MinInHours]

/-- C6 witness: the amended claim instantiated at the walking samples, with
the non-degeneracy hypothesis discharged. -/
theorem claim_C6_witness :
    MainGo.walkTraining.Calories = (0.035 * MainGo.walkTraining.Training.Weight +
      (MainGo.walkTraining.Training.meanSpeed * 0.278) ^ 2 /
        (MainGo.walkTraining.Height / 100) * 0.029 * MainGo.walkTraining.Training.Weight) *
      Fl.hours MainGo.walkTraining.Training.Duration * 60 :=
  (claim_C6_amended Part0.walking MainGo.walkTraining).2.2 (by
    push_neg
    refine ⟨by norm_num [MainGo.walkTraining], by norm_num [MainGo.walkTraining], ?_⟩
    rw [mainWalk_meanSpeed]
    norm_num)
